import Mathlib

/-!
Verification of the WarDragon Analytics collector service
(`app/collector.py`) against its natural-language specification.

The Python source is shallowly embedded: module-level configuration
constants become Lean constants at their default values, the mutable
`KitHealth` object becomes a structure with pure state-transition
functions, timestamps are rationals (seconds), and SQL upserts become
pure functions on lists of rows.
-/

namespace WarDragon

/-- Default configuration constants from `collector.py` (module level):
`INITIAL_BACKOFF = 5.0`, `MAX_BACKOFF = 300.0`, `STALE_THRESHOLD = 60`,
`MAX_RETRIES = 3`.  Floating-point values are represented as rationals;
every value computed in the embedded fragment is exactly representable. -/
def INITIAL_BACKOFF : ℚ := 5

/-- Maximum exponential backoff delay in seconds (`MAX_BACKOFF = 300.0`). -/
def MAX_BACKOFF : ℚ := 300

/-- Staleness threshold in seconds (`STALE_THRESHOLD = 60`). -/
def STALE_THRESHOLD : ℚ := 60

/-- Inline retry count for a single fetch (`MAX_RETRIES = 3`). -/
def MAX_RETRIES : ℕ := 3

/-- State of `class KitHealth` (collector.py lines 59-131).  Counters are
naturals: in the source they are Python ints only ever incremented by 1
from 0, so values are always non-negative. Timestamps are rationals. -/
structure KitHealth where
  kit_id : String
  status : String
  last_seen : Option ℚ
  last_error : Option String
  consecutive_failures : ℕ
  backoff_delay : ℚ
  total_requests : ℕ
  successful_requests : ℕ
  failed_requests : ℕ
deriving Repr, DecidableEq

/-- `KitHealth.__init__` (lines 62-71). -/
def KitHealth.init (kit_id : String) : KitHealth :=
  { kit_id := kit_id
    status := "unknown"
    last_seen := none
    last_error := none
    consecutive_failures := 0
    backoff_delay := INITIAL_BACKOFF
    total_requests := 0
    successful_requests := 0
    failed_requests := 0 }

/-- `KitHealth.mark_success` (lines 73-81); `now` is the value of
`datetime.now(timezone.utc)` at the call. -/
def KitHealth.mark_success (now : ℚ) (h : KitHealth) : KitHealth :=
  { h with
    status := "online"
    last_seen := some now
    consecutive_failures := 0
    backoff_delay := INITIAL_BACKOFF
    total_requests := h.total_requests + 1
    successful_requests := h.successful_requests + 1
    last_error := none }

/-- `KitHealth.mark_failure` (lines 83-99): increments the failure
counters, then sets `backoff_delay = min(INITIAL_BACKOFF * 2 **
consecutive_failures, MAX_BACKOFF)` using the incremented count. -/
def KitHealth.mark_failure (error : String) (h : KitHealth) : KitHealth :=
  { h with
    status := "offline"
    last_error := some error
    consecutive_failures := h.consecutive_failures + 1
    total_requests := h.total_requests + 1
    failed_requests := h.failed_requests + 1
    backoff_delay :=
      min (INITIAL_BACKOFF * 2 ^ (h.consecutive_failures + 1)) MAX_BACKOFF }

/-- `KitHealth.mark_stale` (lines 101-107): if `last_seen` is set and its
age exceeds `STALE_THRESHOLD`, the stored `status` field is set to
`"stale"`; otherwise the state is unchanged. -/
def KitHealth.mark_stale (now : ℚ) (h : KitHealth) : KitHealth :=
  match h.last_seen with
  | some ls => if STALE_THRESHOLD < now - ls then { h with status := "stale" } else h
  | none => h

/-- `KitHealth.get_next_poll_delay` (lines 109-113). -/
def KitHealth.get_next_poll_delay (h : KitHealth) : ℚ :=
  if h.status = "online" then 0 else h.backoff_delay

/-- A streak of `n` consecutive `mark_failure` calls with no intervening
success. -/
def failStreak (error : String) : ℕ → KitHealth → KitHealth
  | 0, h => h
  | n + 1, h => KitHealth.mark_failure error (failStreak error n h)

/-- One recorded poll outcome, as reported to `KitHealth` by the polling
loop (`KitCollector.run`, lines 660-671). -/
inductive HealthEvent where
  | success (now : ℚ)
  | failure (error : String)
deriving Repr, DecidableEq

/-- Apply one recorded outcome to the health state. -/
def applyEvent (h : KitHealth) (e : HealthEvent) : KitHealth :=
  match e with
  | .success now => h.mark_success now
  | .failure err => h.mark_failure err

/-- Run a finite sequence of recorded outcomes from the initial state. -/
def runEvents (kit_id : String) (es : List HealthEvent) : KitHealth :=
  es.foldl applyEvent (KitHealth.init kit_id)

/-- The counter/backoff invariant maintained by the health state machine. -/
def HealthInv (h : KitHealth) : Prop :=
  h.total_requests = h.successful_requests + h.failed_requests
  ∧ INITIAL_BACKOFF ≤ h.backoff_delay ∧ h.backoff_delay ≤ MAX_BACKOFF

/-- A concrete health state last recorded online at time 0, used to
exercise the staleness check. -/
def onlineAtZero : KitHealth :=
  { KitHealth.init "k" with status := "online", last_seen := some 0 }

/-- Outcome of one HTTP attempt inside `KitCollector.fetch_json`
(lines 492-516): a parsed JSON body, a timeout
(`httpx.TimeoutException`), a non-2xx status
(`httpx.HTTPStatusError` raised by `raise_for_status`), a non-timeout
transport error such as connection refused/reset
(`httpx.RequestError`), or any other exception, e.g. a malformed JSON
body failing in `response.json()`. -/
inductive FetchOutcome where
  | ok (payload : String)
  | timeout
  | httpStatus (code : ℕ)
  | requestErr (msg : String)
  | jsonErr
deriving Repr, DecidableEq

/-- `fetch_json(endpoint, retry)` (lines 492-516), with the network
modelled as the outcome of each attempt.  Returns the result together
with the list of inline-backoff sleeps performed
(`asyncio.sleep(1 * (retry + 1))`): only `httpx.TimeoutException`
triggers a recursive retry while `retry < MAX_RETRIES`; every other
error returns `None` at once. -/
def fetch_json_from (net : ℕ → FetchOutcome) (retry : ℕ) :
    Option String × List ℚ :=
  match net retry with
  | .ok p => (some p, [])
  | .timeout =>
      if h : retry < MAX_RETRIES then
        let rest := fetch_json_from net (retry + 1)
        (rest.1, ((1 : ℚ) * (retry + 1)) :: rest.2)
      else (none, [])
  | .httpStatus _ => (none, [])
  | .requestErr _ => (none, [])
  | .jsonErr => (none, [])
termination_by MAX_RETRIES - retry
decreasing_by omega

/-- A fetch as invoked by the pollers (`retry = 0`). -/
def fetch_json (net : ℕ → FetchOutcome) : Option String × List ℚ :=
  fetch_json_from net 0

/-- A network where the first attempt is refused and any retry would
succeed. -/
def refusedThenOk : ℕ → FetchOutcome :=
  fun n => if n = 0 then .requestErr "Connection refused" else .ok "payload"

/-- A network that always times out. -/
def alwaysTimeout : ℕ → FetchOutcome := fun _ => .timeout

/-- One persisted batch, as handed to the database writer by the poller.
Raw JSON elements are opaque strings at this layer: the poller passes
them through to `insert_drones` / `insert_signals` / `insert_health`
untouched. -/
inductive WriteRec where
  | drones (kit_id : String) (items : List String)
  | signals (kit_id : String) (items : List String)
  | health (kit_id : String)
deriving Repr, DecidableEq

/-- `KitCollector.poll_drones` (lines 518-532): returns `False` when the
fetch failed, otherwise persists the (non-empty) payload and returns
`True`.  The fetch result is `none` when `fetch_json` returned `None`. -/
def poll_drones (kit_id : String) (resp : Option (List String)) :
    Bool × List WriteRec :=
  match resp with
  | none => (false, [])
  | some ds => (true, if ds = [] then [] else [WriteRec.drones kit_id ds])

/-- `KitCollector.poll_signals` (lines 534-548), symmetric to
`poll_drones`. -/
def poll_signals (kit_id : String) (resp : Option (List String)) :
    Bool × List WriteRec :=
  match resp with
  | none => (false, [])
  | some ss => (true, if ss = [] then [] else [WriteRec.signals kit_id ss])

/-- `KitCollector.poll_all_endpoints` (lines 580-598): both fetches run,
each successful one persisting its own payload, and the call reports
success iff at least one of the two succeeded. -/
def poll_all_endpoints (kit_id : String) (dresp sresp : Option (List String)) :
    Bool × List WriteRec :=
  let d := poll_drones kit_id dresp
  let s := poll_signals kit_id sresp
  (d.1 || s.1, d.2 ++ s.2)

/-- One iteration of `KitCollector.run` (lines 644-687): poll the two
telemetry endpoints, on every `status_interval_cycles`-th iteration also
poll `/status` (whose success is OR-ed into the cycle result and which
persists a health snapshot), then record the cycle outcome on the
health state. -/
def run_cycle (h : KitHealth) (kit_id : String) (now : ℚ)
    (dresp sresp : Option (List String)) (is_status_cycle statusOk : Bool) :
    KitHealth × Bool × List WriteRec :=
  let pa := poll_all_endpoints kit_id dresp sresp
  let success := pa.1 || (is_status_cycle && statusOk)
  let writes := pa.2 ++ (if is_status_cycle && statusOk then [WriteRec.health kit_id] else [])
  (if success then h.mark_success now
    else h.mark_failure "Failed to fetch data from any endpoint",
    success, writes)

/-- Fields of a `/status` response relevant to identity discovery.
`none` models a missing or empty (falsy) value. -/
structure StatusData where
  kit_id : Option String
  uid : Option String
deriving Repr, DecidableEq

/-- `data.get('kit_id') or data.get('uid')` (lines 558 and 608): the
first truthy of the two keys. -/
def status_identity (d : StatusData) : Option String := d.kit_id.or d.uid

/-- Identity state of a `KitCollector` (lines 476-490): the configured
fallback id, the id discovered from the API (initially `None`), and the
health tracker (created during `_initialize`). -/
structure Collector where
  config_id : String
  kit_id : Option String
  health : Option KitHealth
deriving Repr, DecidableEq

/-- `KitCollector.__init__` identity state: `kit_id = None`,
`health = None`. -/
def Collector.mk_from_config (config_id : String) : Collector :=
  { config_id := config_id, kit_id := none, health := none }

/-- `KitCollector._get_kit_id` (lines 576-578):
`self.kit_id or self.config_id`. -/
def Collector.get_kit_id (c : Collector) : String := c.kit_id.getD c.config_id

/-- The identity-upgrade step of `KitCollector.poll_status`
(lines 556-568): if the probe supplied an identity differing from the
current one, adopt it and re-point the existing health tracker's
`kit_id` in place (no new instance, counters untouched). -/
def Collector.apply_status_identity (c : Collector) (api_id : Option String) :
    Collector :=
  match api_id with
  | none => c
  | some a =>
      if c.kit_id = some a then c
      else { c with
              kit_id := some a
              health := c.health.map (fun hh => { hh with kit_id := a }) }

/-- `KitCollector._initialize` (lines 600-625): probe `/status` once;
adopt the discovered identity if present, otherwise fall back to the
configured id; then create the health tracker under the effective id. -/
def Collector.initialize_with (c : Collector) (d : Option StatusData) : Collector :=
  match d with
  | some data =>
      let c2 :=
        match status_identity data with
        | some a => { c with kit_id := some a }
        | none => { c with kit_id := some c.config_id }
      { c2 with health := some (KitHealth.init c2.get_kit_id) }
  | none =>
      let c2 : Collector := { c with kit_id := some c.config_id }
      { c2 with health := some (KitHealth.init c2.get_kit_id) }

/-- Semantics of `INSERT ... ON CONFLICT (key) DO UPDATE`: if a row
with the incoming row's key exists, every such row is rewritten by the
conflict-update function; otherwise the row is appended. -/
def upsert_row {R K : Type} [DecidableEq K] (key : R → K) (upd : R → R → R)
    (t : List R) (r : R) : List R :=
  if t.any (fun x => decide (key x = key r)) then
    t.map (fun x => if key x = key r then upd x r else x)
  else t ++ [r]

/-- One row of the `drones` hypertable, as written by
`DatabaseWriter.insert_drones` (lines 170-245).  The natural key is
`(time, kit_id, drone_id)`; on conflict only `lat`, `lon`, `alt`,
`speed`, `heading` are overwritten. -/
structure DroneRow where
  time : ℚ
  kit_id : String
  drone_id : String
  lat : Option ℚ
  lon : Option ℚ
  alt : Option ℚ
  speed : Option ℚ
  heading : Option ℚ
  pilot_lat : Option ℚ
  pilot_lon : Option ℚ
  home_lat : Option ℚ
  home_lon : Option ℚ
  mac : Option String
  rssi : Option ℤ
  freq : Option ℚ
  ua_type : Option String
  operator_id : Option String
  caa_id : Option String
  rid_make : Option String
  rid_model : Option String
  rid_source : Option String
  track_type : String
deriving Repr, DecidableEq

/-- Conflict target of the `drones` insert:
`ON CONFLICT (time, kit_id, drone_id)`. -/
def drone_key (r : DroneRow) : ℚ × String × String := (r.time, r.kit_id, r.drone_id)

/-- `DO UPDATE SET lat, lon, alt, speed, heading = EXCLUDED.…`
(lines 192-197). -/
def drone_conflict_update (old new : DroneRow) : DroneRow :=
  { old with
    lat := new.lat
    lon := new.lon
    alt := new.alt
    speed := new.speed
    heading := new.heading }

/-- The per-record upsert performed by `insert_drones`. -/
def drones_upsert : List DroneRow → DroneRow → List DroneRow :=
  upsert_row drone_key drone_conflict_update

/-- One row of the `signals` hypertable
(`DatabaseWriter.insert_signals`, lines 247-300).  The natural key is
`(time, kit_id, freq_mhz)`; on conflict only `power_dbm` is
overwritten. -/
structure SignalRow where
  time : ℚ
  kit_id : String
  freq_mhz : Option ℚ
  power_dbm : Option ℚ
  bandwidth_mhz : Option ℚ
  lat : Option ℚ
  lon : Option ℚ
  alt : Option ℚ
  detection_type : String
deriving Repr, DecidableEq

/-- Conflict target `ON CONFLICT (time, kit_id, freq_mhz)`. -/
def signal_key (r : SignalRow) : ℚ × String × Option ℚ :=
  (r.time, r.kit_id, r.freq_mhz)

/-- `DO UPDATE SET power_dbm = EXCLUDED.power_dbm` (line 266). -/
def signal_conflict_update (old new : SignalRow) : SignalRow :=
  { old with power_dbm := new.power_dbm }

/-- The per-record upsert performed by `insert_signals`. -/
def signals_upsert : List SignalRow → SignalRow → List SignalRow :=
  upsert_row signal_key signal_conflict_update

/-- One row of the `system_health` hypertable
(`DatabaseWriter.insert_health`, lines 302-352).  The natural key is
`(time, kit_id)` — one snapshot per kit per time; on conflict only
`cpu_percent`, `memory_percent`, `disk_percent` are overwritten. -/
structure HealthRow where
  time : ℚ
  kit_id : String
  lat : Option ℚ
  lon : Option ℚ
  alt : Option ℚ
  cpu_percent : Option ℚ
  memory_percent : Option ℚ
  disk_percent : Option ℚ
  uptime_hours : Option ℚ
  temp_cpu : Option ℚ
  temp_gpu : Option ℚ
deriving Repr, DecidableEq

/-- Conflict target `ON CONFLICT (time, kit_id)`. -/
def health_key (r : HealthRow) : ℚ × String := (r.time, r.kit_id)

/-- `DO UPDATE SET cpu_percent, memory_percent, disk_percent =
EXCLUDED.…` (lines 316-319). -/
def health_conflict_update (old new : HealthRow) : HealthRow :=
  { old with
    cpu_percent := new.cpu_percent
    memory_percent := new.memory_percent
    disk_percent := new.disk_percent }

/-- The per-record upsert performed by `insert_health`. -/
def health_upsert : List HealthRow → HealthRow → List HealthRow :=
  upsert_row health_key health_conflict_update

/-- A concrete first write to the `drones` table. -/
def droneRowA : DroneRow :=
  { time := 100, kit_id := "k", drone_id := "d1", lat := some 1, lon := some 2,
    alt := some 3, speed := some 4, heading := some 5, pilot_lat := none,
    pilot_lon := none, home_lat := none, home_lon := none, mac := some "aa:bb",
    rssi := some (-40), freq := some 2437, ua_type := none, operator_id := none,
    caa_id := none, rid_make := none, rid_model := none, rid_source := none,
    track_type := "drone" }

/-- A second write under the same key with different position fields. -/
def droneRowB : DroneRow :=
  { droneRowA with lat := some 9, lon := some 8, alt := some 7, speed := some 6 }

/-- A concrete first write to the `signals` table. -/
def signalRowA : SignalRow :=
  { time := 100, kit_id := "k", freq_mhz := some 5800, power_dbm := some (-70),
    bandwidth_mhz := some 20, lat := some 1, lon := some 2, alt := some 3,
    detection_type := "analog" }

/-- A second write under the same key with different power. -/
def signalRowB : SignalRow := { signalRowA with power_dbm := some (-55) }

/-- A concrete first write to the `system_health` table. -/
def healthRowA : HealthRow :=
  { time := 100, kit_id := "k", lat := some 1, lon := some 2, alt := some 3,
    cpu_percent := some 10, memory_percent := some 20, disk_percent := some 30,
    uptime_hours := some 5, temp_cpu := some 40, temp_gpu := some 40 }

/-- A second write under the same key with different resource metrics. -/
def healthRowB : HealthRow :=
  { healthRowA with
    cpu_percent := some 90
    memory_percent := some 91
    disk_percent := some 92 }

/-- One row of the `kits` metadata table (`DatabaseWriter.
update_kit_status`, lines 354-379).  Keyed by `kit_id`. -/
structure KitRow where
  kit_id : String
  name : Option String
  api_url : Option String
  location : Option String
  status : String
  last_seen : ℚ
deriving Repr, DecidableEq

/-- The conflict update of `update_kit_status`: `status` and
`last_seen` are taken from the incoming row, and `name`/`api_url`/
`location` use `COALESCE(EXCLUDED.x, kits.x)`. -/
def kit_conflict_update (old new : KitRow) : KitRow :=
  { old with
    status := new.status
    last_seen := new.last_seen
    name := new.name.or old.name
    api_url := new.api_url.or old.api_url
    location := new.location.or old.location }

/-- `DatabaseWriter.update_kit_status(kit_id, status, last_seen, name,
api_url, location)` (lines 354-379).  Before the SQL runs, the Python
parameter binding substitutes `name or kit_id` and
`api_url or 'unknown'`, so the `EXCLUDED` values of `name` and
`api_url` are never NULL; `location` is passed through unchanged. -/
def update_kit_status (t : List KitRow) (kit_id : String) (status : String)
    (last_seen : ℚ) (name api_url location : Option String) : List KitRow :=
  let excluded : KitRow :=
    { kit_id := kit_id
      name := some (name.getD kit_id)
      api_url := some (api_url.getD "unknown")
      location := location
      status := status
      last_seen := last_seen }
  upsert_row KitRow.kit_id kit_conflict_update t excluded

/-- A previously stored kit row with full metadata. -/
def storedKitRow : KitRow :=
  { kit_id := "k1"
    name := some "North Tower"
    api_url := some "http://10.0.0.5:8080"
    location := some "roof"
    status := "unknown"
    last_seen := 0 }

/-- One entry of the `kits:` list in the YAML configuration file; a
`none` field models an absent key. -/
structure YamlKit where
  id : Option String
  api_url : Option String
  name : Option String
  location : Option String
deriving Repr, DecidableEq

/-- The body of the validation loop in `CollectorService._load_yaml_kits`
(lines 776-782) for the entry at 0-based position `i`: an entry with an
endpoint but no identifier gets the synthetic id `kit-{i+1}`; entries
missing the endpoint are left for the final filter to drop. -/
def assign_one (i : ℕ) (k : YamlKit) : YamlKit :=
  if k.api_url.isSome ∧ k.id = none then
    { k with id := some ("kit-" ++ toString (i + 1)) }
  else k

/-- The `for i, kit in enumerate(kits)` loop of `_load_yaml_kits`. -/
def assign_ids : ℕ → List YamlKit → List YamlKit
  | _, [] => []
  | i, k :: ks => assign_one i k :: assign_ids (i + 1) ks

/-- `CollectorService._load_yaml_kits` (lines 761-790): validate and
normalize each entry, then return those that have an endpoint
(`return [k for k in kits if 'api_url' in k]`). -/
def load_yaml_kits (kits : List YamlKit) : List YamlKit :=
  (assign_ids 0 kits).filter (fun k => k.api_url.isSome)

/-- A YAML entry with an endpoint but no identifier. -/
def dupEndpointKit : YamlKit :=
  { id := none, api_url := some "http://a", name := none, location := none }

/-- A small YAML configuration: an id-less entry, a fully specified
entry, and an entry missing its endpoint. -/
def yamlKitsSample : List YamlKit :=
  [{ id := none, api_url := some "http://a", name := none, location := none },
   { id := some "alpha", api_url := some "http://b", name := some "B",
     location := none },
   { id := none, api_url := none, name := none, location := none }]

lemma one_le_two_pow_q (n : ℕ) : (1 : ℚ) ≤ 2 ^ n := by
  induction n with
  | zero => norm_num
  | succ k ih => rw [pow_succ]; nlinarith

lemma failStreak_consecutive (error : String) (h : KitHealth) :
    ∀ n, (failStreak error n h).consecutive_failures = h.consecutive_failures + n := by
  intro n
  induction n with
  | zero => simp [failStreak]
  | succ k ih => simp [failStreak, KitHealth.mark_failure, ih]; ring

/-- Claim C1: starting from any health state with a zero failure streak
and baseline backoff, after the `n`-th consecutive `mark_failure` call
`backoff_delay = min(INITIAL_BACKOFF * 2^n, MAX_BACKOFF)`; concretely
n=1 gives 10s, n=3 gives 40s, and n=6 gives 320s capped to 300s; and
every `mark_failure` call sets status to offline, stores the error, and
increments `consecutive_failures`, `total_requests` and
`failed_requests` by one. -/
theorem C1_backoff_growth (error : String) (h : KitHealth)
    (h0 : h.consecutive_failures = 0) (hb : h.backoff_delay = INITIAL_BACKOFF) :
    (∀ n, (failStreak error n h).backoff_delay =
      min (INITIAL_BACKOFF * 2 ^ n) MAX_BACKOFF)
    ∧ (failStreak error 1 h).backoff_delay = 10
    ∧ (failStreak error 3 h).backoff_delay = 40
    ∧ INITIAL_BACKOFF * 2 ^ 6 = 320
    ∧ (failStreak error 6 h).backoff_delay = 300
    ∧ (∀ g : KitHealth,
        (g.mark_failure error).status = "offline"
        ∧ (g.mark_failure error).last_error = some error
        ∧ (g.mark_failure error).consecutive_failures = g.consecutive_failures + 1
        ∧ (g.mark_failure error).total_requests = g.total_requests + 1
        ∧ (g.mark_failure error).failed_requests = g.failed_requests + 1) := by
  have key : ∀ n, (failStreak error n h).backoff_delay =
      min (INITIAL_BACKOFF * 2 ^ n) MAX_BACKOFF := by
    intro n
    cases n with
    | zero =>
      have h5 : (INITIAL_BACKOFF : ℚ) * 2 ^ (0 : ℕ) = INITIAL_BACKOFF := by norm_num
      rw [failStreak, h5, min_eq_left (by norm_num [INITIAL_BACKOFF, MAX_BACKOFF]), hb]
    | succ k =>
      have hc : (failStreak error k h).consecutive_failures = k := by
        rw [failStreak_consecutive error h k, h0, Nat.zero_add]
      simp only [failStreak, KitHealth.mark_failure, hc]
  refine ⟨key, ?_, ?_, ?_, ?_, ?_⟩
  · rw [key 1, min_eq_left (by norm_num [INITIAL_BACKOFF, MAX_BACKOFF])]
    norm_num [INITIAL_BACKOFF]
  · rw [key 3, min_eq_left (by norm_num [INITIAL_BACKOFF, MAX_BACKOFF])]
    norm_num [INITIAL_BACKOFF]
  · norm_num [INITIAL_BACKOFF]
  · rw [key 6, min_eq_right (by norm_num [INITIAL_BACKOFF, MAX_BACKOFF])]
    norm_num [MAX_BACKOFF]
  · intro g
    refine ⟨rfl, rfl, rfl, rfl, rfl⟩

/-- Witness for C1: the hypotheses hold at the freshly initialized state. -/
theorem C1_backoff_growth_witness :
    ((KitHealth.init "k").consecutive_failures = 0
      ∧ (KitHealth.init "k").backoff_delay = INITIAL_BACKOFF)
    ∧ (failStreak "e" 6 (KitHealth.init "k")).backoff_delay = 300 :=
  ⟨⟨rfl, rfl⟩, (C1_backoff_growth "e" (KitHealth.init "k") rfl rfl).2.2.2.2.1⟩

/-- Claim C7: from any prior health state, `mark_success` sets status to
online, sets `last_seen` to the current time, resets
`consecutive_failures` to 0 and `backoff_delay` to the initial value,
clears `last_error`, and increments `total_requests` and
`successful_requests` by one. -/
theorem C7_mark_success_resets (h : KitHealth) (now : ℚ) :
    (h.mark_success now).status = "online"
    ∧ (h.mark_success now).last_seen = some now
    ∧ (h.mark_success now).consecutive_failures = 0
    ∧ (h.mark_success now).backoff_delay = INITIAL_BACKOFF
    ∧ (h.mark_success now).last_error = none
    ∧ (h.mark_success now).total_requests = h.total_requests + 1
    ∧ (h.mark_success now).successful_requests = h.successful_requests + 1
    ∧ (h.mark_success now).failed_requests = h.failed_requests := by
  refine ⟨rfl, rfl, rfl, rfl, rfl, rfl, rfl, rfl⟩

lemma healthInv_init (kit_id : String) : HealthInv (KitHealth.init kit_id) := by
  refine ⟨rfl, le_refl _, by norm_num [KitHealth.init, INITIAL_BACKOFF, MAX_BACKOFF]⟩

lemma healthInv_step (h : KitHealth) (e : HealthEvent) (hi : HealthInv h) :
    HealthInv (applyEvent h e) := by
  obtain ⟨hsum, _, _⟩ := hi
  cases e with
  | success now =>
    refine ⟨?_, le_refl _,
      by norm_num [applyEvent, KitHealth.mark_success, INITIAL_BACKOFF, MAX_BACKOFF]⟩
    simp [applyEvent, KitHealth.mark_success, hsum]; ring
  | failure err =>
    refine ⟨?_, ?_, ?_⟩
    · simp [applyEvent, KitHealth.mark_failure, hsum]; ring
    · have h2 : (1 : ℚ) ≤ 2 ^ (h.consecutive_failures + 1) :=
        one_le_two_pow_q (h.consecutive_failures + 1)
      refine le_min ?_ (by norm_num [INITIAL_BACKOFF, MAX_BACKOFF])
      have : INITIAL_BACKOFF * 1 ≤ INITIAL_BACKOFF * 2 ^ (h.consecutive_failures + 1) := by
        have h5 : (0 : ℚ) ≤ INITIAL_BACKOFF := by norm_num [INITIAL_BACKOFF]
        exact mul_le_mul_of_nonneg_left h2 h5
      simpa [applyEvent, KitHealth.mark_failure] using this
    · simp only [applyEvent, KitHealth.mark_failure]
      exact min_le_right _ _

lemma healthInv_run (es : List HealthEvent) :
    ∀ h : KitHealth, HealthInv h → HealthInv (es.foldl applyEvent h) := by
  induction es with
  | nil => intro h hi; simpa using hi
  | cons e rest ih =>
    intro h hi
    simpa [List.foldl] using ih (applyEvent h e) (healthInv_step h e hi)

/-- Claim C10: for every finite sequence of recorded outcomes starting
from the initial state, `total_requests = successful_requests +
failed_requests`, all three counters are non-negative and never decrease
at any step, and `backoff_delay` stays within
`[INITIAL_BACKOFF, MAX_BACKOFF]`. -/
theorem C10_health_invariant (kit_id : String) (es : List HealthEvent) :
    ((runEvents kit_id es).total_requests =
        (runEvents kit_id es).successful_requests + (runEvents kit_id es).failed_requests)
    ∧ 0 ≤ (runEvents kit_id es).total_requests
    ∧ 0 ≤ (runEvents kit_id es).successful_requests
    ∧ 0 ≤ (runEvents kit_id es).failed_requests
    ∧ INITIAL_BACKOFF ≤ (runEvents kit_id es).backoff_delay
    ∧ (runEvents kit_id es).backoff_delay ≤ MAX_BACKOFF
    ∧ (∀ (h : KitHealth) (e : HealthEvent),
        h.total_requests ≤ (applyEvent h e).total_requests
        ∧ h.successful_requests ≤ (applyEvent h e).successful_requests
        ∧ h.failed_requests ≤ (applyEvent h e).failed_requests) := by
  have hrun : HealthInv (runEvents kit_id es) :=
    healthInv_run es (KitHealth.init kit_id) (healthInv_init kit_id)
  obtain ⟨hsum, hlo, hhi⟩ := hrun
  refine ⟨hsum, Nat.zero_le _, Nat.zero_le _, Nat.zero_le _, hlo, hhi, ?_⟩
  intro h e
  cases e with
  | success now =>
    exact ⟨Nat.le_succ _, Nat.le_succ _, le_refl _⟩
  | failure err =>
    exact ⟨Nat.le_succ _, le_refl _, Nat.le_succ _⟩

/-- Claim C4 counterexample: the staleness check does mutate the stored
status field.  A health state last recorded `"online"` with `last_seen =
0` queried at `now = 600` (threshold 60s) comes back with its stored
`status` field changed to `"stale"`, contradicting the claim that the
check never mutates stored status. -/
theorem C4_counterexample :
    (KitHealth.mark_stale 600 onlineAtZero).status = "stale"
    ∧ onlineAtZero.status = "online" := by
  constructor
  · have h1 : STALE_THRESHOLD < (600 : ℚ) - 0 := by norm_num [STALE_THRESHOLD]
    simp only [KitHealth.mark_stale, onlineAtZero, KitHealth.init, if_pos h1]
  · rfl

/-- Claim C4 (amended): the staleness transition fires iff `last_seen`
is set and `now - last_seen` exceeds the threshold — a condition
independent of the stored status — and when it fires it mutates the
stored `status` field to `"stale"` (leaving every other field
unchanged); otherwise the state is entirely unchanged. -/
theorem C4_stale_condition (now : ℚ) (h : KitHealth) :
    (∀ ls, h.last_seen = some ls → STALE_THRESHOLD < now - ls →
      h.mark_stale now = { h with status := "stale" })
    ∧ (∀ ls, h.last_seen = some ls → now - ls ≤ STALE_THRESHOLD →
      h.mark_stale now = h)
    ∧ (h.last_seen = none → h.mark_stale now = h) := by
  refine ⟨?_, ?_, ?_⟩
  · intro ls hls hlt
    simp [KitHealth.mark_stale, hls, hlt]
  · intro ls hls hle
    simp [KitHealth.mark_stale, hls, not_lt_of_le hle]
  · intro hn
    simp [KitHealth.mark_stale, hn]

/-- Witness for C4 (amended): concrete instantiations of all three
branches. -/
theorem C4_stale_condition_witness :
    (onlineAtZero.last_seen = some 0
      ∧ STALE_THRESHOLD < (600 : ℚ) - 0
      ∧ KitHealth.mark_stale 600 onlineAtZero = { onlineAtZero with status := "stale" })
    ∧ ((30 : ℚ) - 0 ≤ STALE_THRESHOLD
      ∧ KitHealth.mark_stale 30 onlineAtZero = onlineAtZero)
    ∧ ((KitHealth.init "k").last_seen = none
      ∧ KitHealth.mark_stale 600 (KitHealth.init "k") = KitHealth.init "k") := by
  refine ⟨⟨rfl, by norm_num [STALE_THRESHOLD], ?_⟩, ⟨by norm_num [STALE_THRESHOLD], ?_⟩,
    rfl, ?_⟩
  · exact (C4_stale_condition 600 onlineAtZero).1 0 rfl (by norm_num [STALE_THRESHOLD])
  · exact (C4_stale_condition 30 onlineAtZero).2.1 0 rfl (by norm_num [STALE_THRESHOLD])
  · exact (C4_stale_condition 600 (KitHealth.init "k")).2.2 rfl

/-- Claim C5 counterexample: a connection-refused transport error is not
retried inline.  On a network whose first attempt raises
`httpx.RequestError` ("Connection refused") and whose second attempt
would succeed, `fetch_json` returns `None` immediately with no backoff
sleeps performed — contradicting the claim that connection
refused/reset is retried up to the fixed retry count. -/
theorem C5_counterexample :
    fetch_json refusedThenOk = (none, [])
    ∧ refusedThenOk 1 = .ok "payload" := by
  constructor
  · rw [fetch_json, fetch_json_from]
    rfl
  · rfl

/-- Claim C5 (amended): only a timeout is retried inline — up to
`MAX_RETRIES` further attempts, sleeping `(attempt + 1) × 1s` (linear
backoff) before each retry — after which the fetch fails; a non-2xx
HTTP status, a non-timeout transport error (connection refused/reset)
and a malformed JSON body each fail the fetch immediately with no
inline retry and no sleeps. -/
theorem C5_retry_semantics (net : ℕ → FetchOutcome) :
    (∀ p, net 0 = .ok p → fetch_json net = (some p, []))
    ∧ (∀ c, net 0 = .httpStatus c → fetch_json net = (none, []))
    ∧ (∀ m, net 0 = .requestErr m → fetch_json net = (none, []))
    ∧ (net 0 = .jsonErr → fetch_json net = (none, []))
    ∧ (∀ retry, retry < MAX_RETRIES → net retry = .timeout →
        fetch_json_from net retry =
          ((fetch_json_from net (retry + 1)).1,
            ((1 : ℚ) * (retry + 1)) :: (fetch_json_from net (retry + 1)).2))
    ∧ (net MAX_RETRIES = .timeout → fetch_json_from net MAX_RETRIES = (none, []))
    ∧ ((∀ k, k ≤ MAX_RETRIES → net k = .timeout) →
        fetch_json net = (none, [1, 2, 3])) := by
  refine ⟨?_, ?_, ?_, ?_, ?_, ?_, ?_⟩
  · intro p hp
    rw [fetch_json, fetch_json_from, hp]
  · intro c hc
    rw [fetch_json, fetch_json_from, hc]
  · intro m hm
    rw [fetch_json, fetch_json_from, hm]
  · intro hj
    rw [fetch_json, fetch_json_from, hj]
  · intro retry hr ht
    rw [fetch_json_from, ht]
    simp [hr]
  · intro ht
    rw [fetch_json_from, ht]
    simp [MAX_RETRIES]
  · intro hall
    have h0 := hall 0 (by norm_num [MAX_RETRIES])
    have h1 := hall 1 (by norm_num [MAX_RETRIES])
    have h2 := hall 2 (by norm_num [MAX_RETRIES])
    have h3 := hall 3 (by norm_num [MAX_RETRIES])
    rw [fetch_json, fetch_json_from, h0]
    rw [fetch_json_from, h1, fetch_json_from, h2, fetch_json_from, h3]
    norm_num [MAX_RETRIES]

/-- Witness for C5 (amended): concrete instantiations — an immediate
connection-refused failure and an all-timeout run exhausting the three
linear-backoff retries. -/
theorem C5_retry_semantics_witness :
    (refusedThenOk 0 = .requestErr "Connection refused"
      ∧ fetch_json refusedThenOk = (none, []))
    ∧ fetch_json alwaysTimeout = (none, [1, 2, 3]) := by
  refine ⟨⟨rfl, ?_⟩, ?_⟩
  · exact (C5_retry_semantics refusedThenOk).2.2.1 "Connection refused" rfl
  · exact (C5_retry_semantics alwaysTimeout).2.2.2.2.2.2 (fun k _ => rfl)

/-- Claim C2 counterexample: on a status-probe cycle where both the
drones and signals fetches fail but the status fetch succeeds, the
cycle is still recorded as a success (health goes online), so "success
iff at least one of the two concurrent fetches succeeded" fails in the
only-if direction. -/
theorem C2_counterexample :
    (run_cycle (KitHealth.init "k") "k" 0 none none true true).2.1 = true
    ∧ (poll_all_endpoints "k" none none).1 = false
    ∧ (run_cycle (KitHealth.init "k") "k" 0 none none true true).1.status = "online" := by
  refine ⟨rfl, rfl, rfl⟩

/-- Claim C2 (amended): a poll cycle is recorded as a success iff at
least one of the two concurrent fetches succeeded **or**, on a
status-probe cycle, the status fetch succeeded; each successful fetch's
payload is persisted regardless of the other fetch's outcome; in
particular, when the drones fetch fails and the signals fetch succeeds
on an ordinary cycle, health records a success (status online,
`failed_requests` unchanged) and only the signals payload is persisted. -/
theorem C2_partial_success (h : KitHealth) (kit_id : String) (now : ℚ)
    (dresp sresp : Option (List String)) (is_status_cycle statusOk : Bool) :
    ((run_cycle h kit_id now dresp sresp is_status_cycle statusOk).2.1 =
      (dresp.isSome || sresp.isSome || (is_status_cycle && statusOk)))
    ∧ (∀ ss, sresp = some ss → ss ≠ [] →
        WriteRec.signals kit_id ss ∈
          (run_cycle h kit_id now dresp sresp is_status_cycle statusOk).2.2)
    ∧ (∀ ds, dresp = some ds → ds ≠ [] →
        WriteRec.drones kit_id ds ∈
          (run_cycle h kit_id now dresp sresp is_status_cycle statusOk).2.2)
    ∧ (∀ ss, dresp = none → sresp = some ss → ss ≠ [] →
        (run_cycle h kit_id now none (some ss) false statusOk).1 = h.mark_success now
        ∧ (run_cycle h kit_id now none (some ss) false statusOk).1.status = "online"
        ∧ (run_cycle h kit_id now none (some ss) false statusOk).1.failed_requests
            = h.failed_requests
        ∧ (run_cycle h kit_id now none (some ss) false statusOk).2.2
            = [WriteRec.signals kit_id ss]) := by
  refine ⟨?_, ?_, ?_, ?_⟩
  · cases dresp <;> cases sresp <;>
      simp [run_cycle, poll_all_endpoints, poll_drones, poll_signals]
  · intro ss hs hne
    subst hs
    cases dresp <;>
      simp [run_cycle, poll_all_endpoints, poll_drones, poll_signals, hne]
  · intro ds hd hne
    subst hd
    cases sresp <;>
      simp [run_cycle, poll_all_endpoints, poll_drones, poll_signals, hne]
  · intro ss _ _ hne
    refine ⟨?_, ?_, ?_, ?_⟩ <;>
      simp [run_cycle, poll_all_endpoints, poll_drones, poll_signals, hne,
        KitHealth.mark_success]

/-- Witness for C2 (amended): a concrete partial-success cycle — drones
fetch failed, one signal record fetched. -/
theorem C2_partial_success_witness :
    ((some ["sig1"] : Option (List String)) = some ["sig1"] ∧ (["sig1"] : List String) ≠ [])
    ∧ (run_cycle (KitHealth.init "k") "k" 7 none (some ["sig1"]) false false).1
        = (KitHealth.init "k").mark_success 7
    ∧ (run_cycle (KitHealth.init "k") "k" 7 none (some ["sig1"]) false false).2.2
        = [WriteRec.signals "k" ["sig1"]] := by
  refine ⟨⟨rfl, by simp⟩, ?_, ?_⟩
  · exact ((C2_partial_success (KitHealth.init "k") "k" 7 none (some ["sig1"]) false
      false).2.2.2 ["sig1"] rfl rfl (by simp)).1
  · exact ((C2_partial_success (KitHealth.init "k") "k" 7 none (some ["sig1"]) false
      false).2.2.2 ["sig1"] rfl rfl (by simp)).2.2.2

lemma apply_status_identity_isSome (c : Collector) (p : Option String)
    (hs : c.kit_id.isSome) : ((c.apply_status_identity p).kit_id).isSome := by
  cases p with
  | none => exact hs
  | some a =>
      by_cases hc : c.kit_id = some a <;>
        simp [Collector.apply_status_identity, hc]

lemma foldl_apply_status_identity_isSome (probes : List (Option String)) :
    ∀ c : Collector, c.kit_id.isSome →
      ((probes.foldl Collector.apply_status_identity c).kit_id).isSome := by
  induction probes with
  | nil => intro c hc; simpa using hc
  | cons p rest ih =>
      intro c hc
      simpa [List.foldl] using ih _ (apply_status_identity_isSome c p hc)

/-- Claim C3: before discovery the effective identity is the configured
id; once a status probe supplies an identity `a`, the effective
identity becomes `a`, the switch is a one-way in-place upgrade — the
discovered id is never cleared, and while no later probe supplies an
identity the effective id stays `a` — and the health counters
(`total_requests`, `successful_requests`, `failed_requests`,
`consecutive_failures`) carry over unchanged across the upgrade. -/
theorem C3_identity_upgrade (c : Collector) (a : String) (ha : c.kit_id ≠ some a) :
    (c.kit_id = none → c.get_kit_id = c.config_id)
    ∧ (c.apply_status_identity (some a)).kit_id = some a
    ∧ (c.apply_status_identity (some a)).get_kit_id = a
    ∧ (∀ probes : List (Option String),
        (((probes.foldl Collector.apply_status_identity
            (c.apply_status_identity (some a))).kit_id)).isSome)
    ∧ (∀ probes : List (Option String), (∀ p ∈ probes, p = none) →
        (probes.foldl Collector.apply_status_identity
            (c.apply_status_identity (some a))).get_kit_id = a)
    ∧ (∀ hh, c.health = some hh →
        (c.apply_status_identity (some a)).health = some { hh with kit_id := a }
        ∧ ({ hh with kit_id := a } : KitHealth).total_requests = hh.total_requests
        ∧ ({ hh with kit_id := a } : KitHealth).successful_requests
            = hh.successful_requests
        ∧ ({ hh with kit_id := a } : KitHealth).failed_requests = hh.failed_requests
        ∧ ({ hh with kit_id := a } : KitHealth).consecutive_failures
            = hh.consecutive_failures) := by
  have hup : (c.apply_status_identity (some a)).kit_id = some a := by
    simp [Collector.apply_status_identity, ha]
  refine ⟨?_, hup, ?_, ?_, ?_, ?_⟩
  · intro hn
    simp [Collector.get_kit_id, hn]
  · simp [Collector.get_kit_id, hup]
  · intro probes
    exact foldl_apply_status_identity_isSome probes _ (by simp [hup])
  · intro probes hnone
    induction probes generalizing c with
    | nil => simp [Collector.get_kit_id, hup]
    | cons p rest ih =>
        have hp : p = none := hnone p (List.mem_cons_self p rest)
        subst hp
        simpa [List.foldl, Collector.apply_status_identity] using
          ih c ha hup (fun q hq => hnone q (List.mem_cons_of_mem none hq))
  · intro hh hhh
    refine ⟨?_, rfl, rfl, rfl, rfl⟩
    simp [Collector.apply_status_identity, ha, hhh]

/-- Witness for C3: the spec's own scenario — a collector configured as
`kit-cfg-7` whose first probe reports identity `wd-9f21`. -/
theorem C3_identity_upgrade_witness :
    ((Collector.mk_from_config "kit-cfg-7").kit_id ≠ some "wd-9f21")
    ∧ (Collector.mk_from_config "kit-cfg-7").get_kit_id = "kit-cfg-7"
    ∧ ((Collector.mk_from_config "kit-cfg-7").apply_status_identity
        (some "wd-9f21")).get_kit_id = "wd-9f21"
    ∧ ([none, none].foldl Collector.apply_status_identity
        ((Collector.mk_from_config "kit-cfg-7").apply_status_identity
          (some "wd-9f21"))).get_kit_id = "wd-9f21" := by
  have hne : (Collector.mk_from_config "kit-cfg-7").kit_id ≠ some "wd-9f21" := by
    simp [Collector.mk_from_config]
  refine ⟨hne, ?_, ?_, ?_⟩
  · exact (C3_identity_upgrade (Collector.mk_from_config "kit-cfg-7") "wd-9f21" hne).1 rfl
  · exact (C3_identity_upgrade (Collector.mk_from_config "kit-cfg-7") "wd-9f21"
      hne).2.2.1
  · exact (C3_identity_upgrade (Collector.mk_from_config "kit-cfg-7") "wd-9f21"
      hne).2.2.2.2.1 [none, none] (by simp)

lemma upsert_row_fresh {R K : Type} [DecidableEq K] (key : R → K)
    (upd : R → R → R) (t : List R) (r : R)
    (hfresh : ∀ x ∈ t, key x ≠ key r) : upsert_row key upd t r = t ++ [r] := by
  have hany : t.any (fun x => decide (key x = key r)) = false := by
    simp only [List.any_eq_false, decide_eq_true_eq]
    exact hfresh
  simp [upsert_row, hany]

lemma upsert_row_twice_spec {R K : Type} [DecidableEq K] (key : R → K)
    (upd : R → R → R) (t : List R) (r1 r2 : R) (hk : key r1 = key r2)
    (hfresh : ∀ x ∈ t, key x ≠ key r1) (hupd : key (upd r1 r2) = key r1) :
    upsert_row key upd (upsert_row key upd t r1) r2 = t ++ [upd r1 r2]
    ∧ ((upsert_row key upd (upsert_row key upd t r1) r2).countP
        (fun x => decide (key x = key r1)) = 1)
    ∧ (∀ x ∈ upsert_row key upd (upsert_row key upd t r1) r2,
        key x = key r1 → x = upd r1 r2) := by
  have h1 : upsert_row key upd t r1 = t ++ [r1] :=
    upsert_row_fresh key upd t r1 hfresh
  have hany : (t ++ [r1]).any (fun x => decide (key x = key r2)) = true := by
    simp [List.any_eq_true]
    exact Or.inr hk
  have hmapt : ∀ l : List R, (∀ x ∈ l, key x ≠ key r2) →
      l.map (fun x => if key x = key r2 then upd x r2 else x) = l := by
    intro l
    induction l with
    | nil => intro _; rfl
    | cons a as ih =>
        intro hl
        have ha : key a ≠ key r2 := hl a (List.mem_cons_self a as)
        rw [List.map_cons, if_neg ha, ih (fun x hx => hl x (List.mem_cons_of_mem a hx))]
  have hmap : (t ++ [r1]).map (fun x => if key x = key r2 then upd x r2 else x)
      = t ++ [upd r1 r2] := by
    rw [List.map_append]
    congr 1
    · exact hmapt t (fun x hx => hk ▸ hfresh x hx)
    · simp [hk]
  have h2 : upsert_row key upd (upsert_row key upd t r1) r2 = t ++ [upd r1 r2] := by
    rw [h1, upsert_row, if_pos hany, hmap]
  refine ⟨h2, ?_, ?_⟩
  · rw [h2, List.countP_append]
    have hz : t.countP (fun x => decide (key x = key r1)) = 0 := by
      rw [List.countP_eq_zero]
      intro x hx
      simpa using hfresh x hx
    simp [hz, hupd]
  · intro x hx _
    rw [h2] at hx
    rcases List.mem_append.mp hx with hx | hx
    · exact absurd ‹key x = key r1› (hfresh x hx)
    · simpa using hx

/-- Claim C6: writing the same natural key twice with differing mutable
fields leaves exactly one stored row per table, carrying the second
write's mutable values (position fields for `drones`, `power_dbm` for
`signals`, resource metrics for `system_health`) while the key (time
and identity) and all other first-write fields are never overwritten. -/
theorem C6_upsert_idempotent :
    (∀ (t : List DroneRow) (r1 r2 : DroneRow), drone_key r1 = drone_key r2 →
      (∀ x ∈ t, drone_key x ≠ drone_key r1) →
      ((drones_upsert (drones_upsert t r1) r2).countP
          (fun x => decide (drone_key x = drone_key r1)) = 1)
      ∧ (∀ x ∈ drones_upsert (drones_upsert t r1) r2, drone_key x = drone_key r1 →
          x.time = r1.time ∧ x.kit_id = r1.kit_id ∧ x.drone_id = r1.drone_id
          ∧ x.lat = r2.lat ∧ x.lon = r2.lon ∧ x.alt = r2.alt
          ∧ x.speed = r2.speed ∧ x.heading = r2.heading
          ∧ x.pilot_lat = r1.pilot_lat ∧ x.pilot_lon = r1.pilot_lon
          ∧ x.home_lat = r1.home_lat ∧ x.home_lon = r1.home_lon
          ∧ x.mac = r1.mac ∧ x.rssi = r1.rssi ∧ x.freq = r1.freq
          ∧ x.ua_type = r1.ua_type ∧ x.operator_id = r1.operator_id
          ∧ x.caa_id = r1.caa_id ∧ x.rid_make = r1.rid_make
          ∧ x.rid_model = r1.rid_model ∧ x.rid_source = r1.rid_source
          ∧ x.track_type = r1.track_type))
    ∧ (∀ (t : List SignalRow) (r1 r2 : SignalRow), signal_key r1 = signal_key r2 →
      (∀ x ∈ t, signal_key x ≠ signal_key r1) →
      ((signals_upsert (signals_upsert t r1) r2).countP
          (fun x => decide (signal_key x = signal_key r1)) = 1)
      ∧ (∀ x ∈ signals_upsert (signals_upsert t r1) r2, signal_key x = signal_key r1 →
          x.time = r1.time ∧ x.kit_id = r1.kit_id ∧ x.freq_mhz = r1.freq_mhz
          ∧ x.power_dbm = r2.power_dbm
          ∧ x.bandwidth_mhz = r1.bandwidth_mhz ∧ x.lat = r1.lat
          ∧ x.lon = r1.lon ∧ x.alt = r1.alt
          ∧ x.detection_type = r1.detection_type))
    ∧ (∀ (t : List HealthRow) (r1 r2 : HealthRow), health_key r1 = health_key r2 →
      (∀ x ∈ t, health_key x ≠ health_key r1) →
      ((health_upsert (health_upsert t r1) r2).countP
          (fun x => decide (health_key x = health_key r1)) = 1)
      ∧ (∀ x ∈ health_upsert (health_upsert t r1) r2, health_key x = health_key r1 →
          x.time = r1.time ∧ x.kit_id = r1.kit_id
          ∧ x.cpu_percent = r2.cpu_percent ∧ x.memory_percent = r2.memory_percent
          ∧ x.disk_percent = r2.disk_percent
          ∧ x.lat = r1.lat ∧ x.lon = r1.lon ∧ x.alt = r1.alt
          ∧ x.uptime_hours = r1.uptime_hours ∧ x.temp_cpu = r1.temp_cpu
          ∧ x.temp_gpu = r1.temp_gpu)) := by
  refine ⟨?_, ?_, ?_⟩
  · intro t r1 r2 hk hfresh
    obtain ⟨_, hcount, huniq⟩ :=
      upsert_row_twice_spec drone_key drone_conflict_update t r1 r2 hk hfresh rfl
    refine ⟨hcount, ?_⟩
    intro x hx hkey
    have hx2 := huniq x hx hkey
    subst hx2
    exact ⟨rfl, rfl, rfl, rfl, rfl, rfl, rfl, rfl, rfl, rfl, rfl, rfl, rfl, rfl,
      rfl, rfl, rfl, rfl, rfl, rfl, rfl, rfl⟩
  · intro t r1 r2 hk hfresh
    obtain ⟨_, hcount, huniq⟩ :=
      upsert_row_twice_spec signal_key signal_conflict_update t r1 r2 hk hfresh rfl
    refine ⟨hcount, ?_⟩
    intro x hx hkey
    have hx2 := huniq x hx hkey
    subst hx2
    exact ⟨rfl, rfl, rfl, rfl, rfl, rfl, rfl, rfl, rfl⟩
  · intro t r1 r2 hk hfresh
    obtain ⟨_, hcount, huniq⟩ :=
      upsert_row_twice_spec health_key health_conflict_update t r1 r2 hk hfresh rfl
    refine ⟨hcount, ?_⟩
    intro x hx hkey
    have hx2 := huniq x hx hkey
    subst hx2
    exact ⟨rfl, rfl, rfl, rfl, rfl, rfl, rfl, rfl, rfl, rfl, rfl⟩

/-- Witness for C6: concrete double writes into each initially empty
table. -/
theorem C6_upsert_idempotent_witness :
    (drone_key droneRowA = drone_key droneRowB
      ∧ (drones_upsert (drones_upsert [] droneRowA) droneRowB).countP
          (fun x => decide (drone_key x = drone_key droneRowA)) = 1)
    ∧ (signal_key signalRowA = signal_key signalRowB
      ∧ (signals_upsert (signals_upsert [] signalRowA) signalRowB).countP
          (fun x => decide (signal_key x = signal_key signalRowA)) = 1)
    ∧ (health_key healthRowA = health_key healthRowB
      ∧ (health_upsert (health_upsert [] healthRowA) healthRowB).countP
          (fun x => decide (health_key x = health_key healthRowA)) = 1) := by
  refine ⟨⟨rfl, ?_⟩, ⟨rfl, ?_⟩, ⟨rfl, ?_⟩⟩
  · exact (C6_upsert_idempotent.1 [] droneRowA droneRowB rfl (by simp)).1
  · exact (C6_upsert_idempotent.2.1 [] signalRowA signalRowB rfl (by simp)).1
  · exact (C6_upsert_idempotent.2.2 [] healthRowA healthRowB rfl (by simp)).1

/-- Claim C8 counterexample: an upsert lacking name and endpoint does
replace the previously known values with placeholders.  A stored row
named `"North Tower"` at `http://10.0.0.5:8080` updated with absent
`name`/`api_url`/`location` comes back with `name = "k1"` (the source
id) and `api_url = "unknown"` — only `location` is preserved by the
coalesce. -/
theorem C8_counterexample :
    update_kit_status [storedKitRow] "k1" "online" 100 none none none
      = [{ kit_id := "k1"
           name := some "k1"
           api_url := some "unknown"
           location := some "roof"
           status := "online"
           last_seen := 100 }]
    ∧ (some "k1" : Option String) ≠ some "North Tower"
    ∧ (some "unknown" : Option String) ≠ some "http://10.0.0.5:8080" := by
  refine ⟨?_, by decide, by decide⟩
  have hany : [storedKitRow].any
      (fun x => decide (KitRow.kit_id x = "k1")) = true := rfl
  simp [update_kit_status, upsert_row, kit_conflict_update, storedKitRow]

/-- Claim C8 (amended): the kits-metadata upsert is keyed by source
identity; an absent incoming `location` preserves the stored location
(coalesce-on-conflict), but an absent `name` is replaced by the source
id and an absent `api_url` by the literal `"unknown"` before the write,
so those two stored fields are overwritten with placeholders; when
incoming values are present they overwrite; the key is never
overwritten; a miss on the key appends a new row. -/
theorem C8_metadata_upsert (old : KitRow) (k status : String) (last_seen : ℚ)
    (name api_url location : Option String) (hk : old.kit_id = k) :
    (update_kit_status [old] k status last_seen name api_url location
      = [kit_conflict_update old
          { kit_id := k
            name := some (name.getD k)
            api_url := some (api_url.getD "unknown")
            location := location
            status := status
            last_seen := last_seen }])
    ∧ (∀ x ∈ update_kit_status [old] k status last_seen name api_url location,
        x.kit_id = old.kit_id
        ∧ x.status = status
        ∧ x.last_seen = last_seen
        ∧ x.name = some (name.getD k)
        ∧ x.api_url = some (api_url.getD "unknown")
        ∧ x.location = location.or old.location)
    ∧ (∀ old2 : KitRow, old2.kit_id ≠ k →
        update_kit_status [old2] k status last_seen name api_url location
          = [old2,
             { kit_id := k
               name := some (name.getD k)
               api_url := some (api_url.getD "unknown")
               location := location
               status := status
               last_seen := last_seen }]) := by
  have hbase : update_kit_status [old] k status last_seen name api_url location
      = [kit_conflict_update old
          { kit_id := k
            name := some (name.getD k)
            api_url := some (api_url.getD "unknown")
            location := location
            status := status
            last_seen := last_seen }] := by
    simp [update_kit_status, upsert_row, hk]
  refine ⟨hbase, ?_, ?_⟩
  · intro x hx
    rw [hbase] at hx
    simp only [List.mem_singleton] at hx
    subst hx
    exact ⟨rfl, rfl, rfl, rfl, rfl, rfl⟩
  · intro old2 hne
    simp [update_kit_status, upsert_row, hne]

/-- Witness for C8 (amended): the stored row updated with absent
metadata keeps its location but gets placeholder name and endpoint. -/
theorem C8_metadata_upsert_witness :
    storedKitRow.kit_id = "k1"
    ∧ (∀ x ∈ update_kit_status [storedKitRow] "k1" "online" 100 none none none,
        x.kit_id = storedKitRow.kit_id
        ∧ x.status = "online"
        ∧ x.last_seen = 100
        ∧ x.name = some "k1"
        ∧ x.api_url = some "unknown"
        ∧ x.location = some "roof") := by
  refine ⟨rfl, ?_⟩
  have h := (C8_metadata_upsert storedKitRow "k1" "online" 100 none none none rfl).2.1
  intro x hx
  simpa using h x hx

lemma assign_one_api (i : ℕ) (k : YamlKit) : (assign_one i k).api_url = k.api_url := by
  unfold assign_one
  split <;> rfl

lemma filter_assign_length :
    ∀ (kits : List YamlKit) (i : ℕ),
      ((assign_ids i kits).filter (fun k => k.api_url.isSome)).length
        = (kits.filter (fun k => k.api_url.isSome)).length := by
  intro kits
  induction kits with
  | nil => intro i; rfl
  | cons k ks ih =>
      intro i
      have hapi : (assign_one i k).api_url.isSome = k.api_url.isSome := by
        rw [assign_one_api]
      rw [assign_ids, List.filter_cons, List.filter_cons, hapi]
      cases k.api_url.isSome <;> simp [ih (i + 1)]

lemma mem_assign_ids_id_isSome :
    ∀ (kits : List YamlKit) (i : ℕ) (x : YamlKit), x ∈ assign_ids i kits →
      x.api_url.isSome → x.id.isSome := by
  intro kits
  induction kits with
  | nil => intro i x hx; simp [assign_ids] at hx
  | cons k ks ih =>
      intro i x hx hapi
      rw [assign_ids] at hx
      rcases List.mem_cons.mp hx with hx | hx
      · subst hx
        by_cases hcond : k.api_url.isSome = true ∧ k.id = none
        · simp [assign_one, hcond]
        · have h2 : assign_one i k = k := by
            unfold assign_one
            exact if_neg hcond
          rw [h2] at hapi ⊢
          cases hid : k.id with
          | none => exact absurd ⟨hapi, hid⟩ hcond
          | some v => rfl
      · exact ih (i + 1) x hx hapi

lemma mem_assign_ids_unchanged :
    ∀ (kits : List YamlKit) (i : ℕ) (k : YamlKit), k ∈ kits →
      k.api_url.isSome → k.id.isSome → k ∈ assign_ids i kits := by
  intro kits
  induction kits with
  | nil => intro i k hk; simp at hk
  | cons a as ih =>
      intro i k hk hapi hid
      rcases List.mem_cons.mp hk with hk | hk
      · subst hk
        have hcond : ¬(k.api_url.isSome ∧ k.id = none) := by
          rintro ⟨_, hnone⟩
          rw [hnone] at hid
          simp at hid
        rw [assign_ids]
        have : assign_one i k = k := by
          unfold assign_one
          exact if_neg hcond
        rw [this]
        exact List.mem_cons_self k _
      · exact List.mem_cons_of_mem _ (ih (i + 1) k hk hapi hid)

lemma assign_ids_get_mem :
    ∀ (kits : List YamlKit) (i j : ℕ) (hj : j < kits.length),
      assign_one (i + j) (kits.get ⟨j, hj⟩) ∈ assign_ids i kits := by
  intro kits
  induction kits with
  | nil => intro i j hj; simp at hj
  | cons k ks ih =>
      intro i j hj
      cases j with
      | zero =>
          rw [assign_ids]
          have : i + 0 = i := Nat.add_zero i
          rw [this]
          exact List.mem_cons_self _ _
      | succ m =>
          rw [assign_ids]
          have hm : m < ks.length := Nat.lt_of_succ_lt_succ hj
          have heq : i + (m + 1) = (i + 1) + m := by omega
          have := ih (i + 1) m hm
          rw [heq]
          exact List.mem_cons_of_mem _ this

/-- Claim C9 counterexample: the synthetic id is not derived from the
endpoint.  Two definitions with the identical endpoint and no id load
with the distinct ids `kit-1` and `kit-2`, taken from their positions
in the file, so no function of the endpoint yields the assigned id. -/
theorem C9_counterexample :
    load_yaml_kits [dupEndpointKit, dupEndpointKit]
      = [{ dupEndpointKit with id := some "kit-1" },
         { dupEndpointKit with id := some "kit-2" }]
    ∧ ({ dupEndpointKit with id := some "kit-1" } : YamlKit).api_url
        = ({ dupEndpointKit with id := some "kit-2" } : YamlKit).api_url
    ∧ ({ dupEndpointKit with id := some "kit-1" } : YamlKit).id
        ≠ ({ dupEndpointKit with id := some "kit-2" } : YamlKit).id := by
  refine ⟨rfl, rfl, by decide⟩

/-- Claim C9 (amended): loading never fails as a whole — every
definition missing its endpoint is dropped while all others still load
(the loaded list has exactly one entry per definition with an
endpoint); every loaded definition has an endpoint and an identifier; a
definition with both endpoint and identifier loads unchanged; and a
definition with an endpoint but no identifier is assigned the synthetic
id `kit-{i+1}` derived from its 1-based position in the file (not from
its endpoint). -/
theorem C9_yaml_load (kits : List YamlKit) :
    ((load_yaml_kits kits).length
        = (kits.filter (fun k => k.api_url.isSome)).length)
    ∧ (∀ k ∈ load_yaml_kits kits, k.api_url.isSome ∧ k.id.isSome)
    ∧ (∀ k ∈ kits, k.api_url.isSome → k.id.isSome → k ∈ load_yaml_kits kits)
    ∧ (∀ i (hi : i < kits.length), (kits.get ⟨i, hi⟩).api_url.isSome →
        (kits.get ⟨i, hi⟩).id = none →
        { kits.get ⟨i, hi⟩ with id := some ("kit-" ++ toString (i + 1)) }
          ∈ load_yaml_kits kits) := by
  refine ⟨filter_assign_length kits 0, ?_, ?_, ?_⟩
  · intro k hk
    have hmem := List.mem_filter.mp hk
    exact ⟨hmem.2, mem_assign_ids_id_isSome kits 0 k hmem.1 hmem.2⟩
  · intro k hk hapi hid
    exact List.mem_filter.mpr ⟨mem_assign_ids_unchanged kits 0 k hk hapi hid, hapi⟩
  · intro i hi hapi hid
    have hmem := assign_ids_get_mem kits 0 i hi
    have hz : (0 : ℕ) + i = i := Nat.zero_add i
    rw [hz] at hmem
    have hone : assign_one i (kits.get ⟨i, hi⟩)
        = { kits.get ⟨i, hi⟩ with id := some ("kit-" ++ toString (i + 1)) } := by
      unfold assign_one
      exact if_pos ⟨hapi, hid⟩
    rw [hone] at hmem
    refine List.mem_filter.mpr ⟨hmem, ?_⟩
    simpa using hapi

/-- Witness for C9 (amended): on the sample configuration the entry
without an endpoint is dropped, the full entry loads unchanged, and the
id-less first entry gets `kit-1`. -/
theorem C9_yaml_load_witness :
    ((yamlKitsSample.filter (fun k => k.api_url.isSome)).length = 2
      ∧ (load_yaml_kits yamlKitsSample).length = 2)
    ∧ ({ id := some "alpha", api_url := some "http://b", name := some "B",
          location := none } : YamlKit) ∈ load_yaml_kits yamlKitsSample
    ∧ { yamlKitsSample.get ⟨0, by norm_num [yamlKitsSample]⟩ with
          id := some ("kit-" ++ toString (0 + 1)) } ∈ load_yaml_kits yamlKitsSample := by
  refine ⟨⟨rfl, ?_⟩, ?_, ?_⟩
  · rw [(C9_yaml_load yamlKitsSample).1]; rfl
  · exact (C9_yaml_load yamlKitsSample).2.2.1 _ (by simp [yamlKitsSample]) rfl rfl
  · exact (C9_yaml_load yamlKitsSample).2.2.2 0 (by norm_num [yamlKitsSample]) rfl rfl

end WarDragon
